import Mathlib

/-!
Verification of the HTTP wrapper in src/mcp-neo4j/src/http_wrapper.py.

The wrapper exposes three tool endpoints (schema introspection, read query,
write query) over a graph database.  The logic owned by this repository is
the query classifier (keyword substring search), the request validator and
the response normalizer.  We embed that logic shallowly: request argument
values become an inductive `Value` type with Python truthiness, the
database driver becomes an oracle `DriverOutcome` (either a result or a
raised exception, already stringified), and each endpoint handler becomes a
pure function from the request arguments and the driver outcome to the pair
of the produced `ToolResponse` and a flag recording whether the database
call was attempted.
-/

namespace IKAS

/-- A JSON-ish Python value as it can appear in the request arguments
mapping.  `null` models Python None; `dict` models a mapping given as an
association list. -/
inductive Value where
  | str (s : String)
  | int (n : Int)
  | bool (b : Bool)
  | null
  | list (items : List Value)
  | dict (fields : List (String × Value))

/-- Python truthiness, as tested by the `if not query` guard in
read_neo4j_cypher / write_neo4j_cypher (lines 133, 163). -/
def Value.truthy : Value → Bool
  | .str s => !(s == "")
  | .int n => !(n == 0)
  | .bool b => b
  | .null => false
  | .list items => !items.isEmpty
  | .dict fields => !fields.isEmpty

/-- The Python type name of a value, as it appears in an AttributeError. -/
def Value.pyType : Value → String
  | .str _ => "str"
  | .int _ => "int"
  | .bool _ => "bool"
  | .null => "NoneType"
  | .list _ => "list"
  | .dict _ => "dict"

/-- Models str(e) for the AttributeError raised by `query.upper()` when the
query argument is not a string (the real CPython text also carries quote
characters, which we elide; no claim depends on the exact tail). -/
def upperAttrError (v : Value) : String :=
  v.pyType ++ " object has no attribute upper"

/-- Models str(e) for the AttributeError raised by `args.get(...)` when
`request.arguments` is None (explicit JSON null). -/
def noneGetError : String :=
  "NoneType object has no attribute get"

/-- `leadsWith p l` is true when the list `l` starts with the pattern `p`. -/
def leadsWith : List Char → List Char → Bool
  | [], _ => true
  | _ :: _, [] => false
  | b :: bs, c :: cs => b == c && leadsWith bs cs

/-- Python substring containment `sub in s` on strings. -/
def strContains (s sub : String) : Bool :=
  (List.range (s.data.length + 1)).any (fun i => leadsWith sub.data (s.data.drop i))

/-- Python `s.upper()`: per-character uppercasing (the queries of interest
are ASCII, where this matches CPython exactly). -/
def pyUpper (s : String) : String :=
  ⟨s.data.map Char.toUpper⟩

/-- The fixed keyword set of the classifier (lines 137 and 167). -/
def write_keywords : List String :=
  ["MERGE", "CREATE", "SET", "DELETE", "REMOVE", "ADD"]

/-- The query classifier:
`any(keyword in query.upper() for keyword in write_keywords)`
(lines 138 and 168). -/
def is_write (query : String) : Bool :=
  write_keywords.any (fun kw => strContains (pyUpper query) kw)

/-- The response model of the wrapper (lines 42-45): both `data` and
`error` are optional and default to None. -/
structure ToolResponse where
  success : Bool
  data : Option Value := none
  error : Option String := none

/-- `ToolResponse(success=True, data=d)`. -/
def okResp (d : Value) : ToolResponse :=
  { success := true, data := some d, error := none }

/-- `ToolResponse(success=False, error=e)`. -/
def errResp (e : String) : ToolResponse :=
  { success := false, data := none, error := some e }

/-- Exactly one of the success-data and failure-error sides is populated. -/
def wellFormed (r : ToolResponse) : Bool :=
  (r.success && r.data.isSome && r.error.isNone) ||
  (!r.success && (r.data : Option Value).isNone && r.error.isSome)

/-- The request arguments mapping, as an association list. -/
abbrev Args := List (String × Value)

/-- `args.get(k)`: None when the key is absent. -/
def argsGet (args : Args) (k : String) : Option Value :=
  (args.find? (fun p => p.1 == k)).map (fun p => p.2)

/-- `record.get(k, d)`: lookup with a default. -/
def recordGetD (r : Args) (k : String) (d : Value) : Value :=
  match argsGet r k with
  | some v => v
  | none => d

/-- Outcome of one database driver call: either the value the call
evaluates to, or the stringified exception it raises. -/
inductive DriverOutcome (α : Type) where
  | ok (result : α)
  | raises (msg : String)

/-- The mutation counters of the driver operation summary consumed at
lines 178-186. -/
structure SummaryCounters where
  nodes_created : Int
  nodes_deleted : Int
  relationships_created : Int
  relationships_deleted : Int
  properties_set : Int
  labels_added : Int
  labels_removed : Int

/-- The special-cased remediation message (line 120). -/
def apocMissingMsg : String :=
  "Neo4j instance does not have the APOC plugin installed. Please install and enable the APOC plugin."

/-- The driver error code tested at line 119. -/
def procNotFoundCode : String :=
  "Neo.ClientError.Procedure.ProcedureNotFound"

/-- Endpoint POST /tools/get_neo4j_schema (lines 98-123).  The driver call
returns the transformed record list `r.data()`; the handler never reads the
request arguments.  The second component records whether the database call
was attempted. -/
def get_neo4j_schema (_request : Option Args) (driver : DriverOutcome (List Args)) :
    ToolResponse × Bool :=
  match driver with
  | .ok result =>
    match result with
    | [] => (okResp (.dict []), true)
    | r :: _ => (okResp (recordGetD r "value" (.dict [])), true)
  | .raises m =>
    if strContains m procNotFoundCode then
      (errResp apocMissingMsg, true)
    else
      (errResp ("Neo4j Error: " ++ m), true)

/-- Endpoint POST /tools/read_neo4j_cypher (lines 125-153).  `args` is
`request.arguments` (None models explicit JSON null); the driver call
returns the transformed row data. -/
def read_neo4j_cypher (args : Option Args) (driver : DriverOutcome Value) :
    ToolResponse × Bool :=
  match args with
  | none => (errResp ("Neo4j Error: " ++ noneGetError), false)
  | some a =>
    match argsGet a "query" with
    | none => (errResp "Query parameter is required", false)
    | some q =>
      if !q.truthy then
        (errResp "Query parameter is required", false)
      else
        match q with
        | .str s =>
          if is_write s then
            (errResp "Only MATCH queries are allowed for read-query", false)
          else
            match driver with
            | .ok rows => (okResp rows, true)
            | .raises m => (errResp ("Neo4j Error: " ++ m), true)
        | v => (errResp ("Neo4j Error: " ++ upperAttrError v), false)

/-- Endpoint POST /tools/write_neo4j_cypher (lines 155-192).  The driver
call returns the record list together with the operation summary counters;
the record list is what the handler discards at line 171. -/
def write_neo4j_cypher (args : Option Args)
    (driver : DriverOutcome (List Value × SummaryCounters)) :
    ToolResponse × Bool :=
  match args with
  | none => (errResp ("Neo4j Error: " ++ noneGetError), false)
  | some a =>
    match argsGet a "query" with
    | none => (errResp "Query parameter is required", false)
    | some q =>
      if !q.truthy then
        (errResp "Query parameter is required", false)
      else
        match q with
        | .str s =>
          if !(is_write s) then
            (errResp "Only write queries are allowed for write-query", false)
          else
            match driver with
            | .ok res =>
              (okResp (.dict
                [("nodesCreated", .int res.2.nodes_created),
                 ("nodesDeleted", .int res.2.nodes_deleted),
                 ("relationshipsCreated", .int res.2.relationships_created),
                 ("relationshipsDeleted", .int res.2.relationships_deleted),
                 ("propertiesSet", .int res.2.properties_set),
                 ("labelsAdded", .int res.2.labels_added),
                 ("labelsRemoved", .int res.2.labels_removed)]), true)
            | .raises m => (errResp ("Neo4j Error: " ++ m), true)
        | v => (errResp ("Neo4j Error: " ++ upperAttrError v), false)

/-! ### Helper lemmas -/

theorem leadsWith_iff (p l : List Char) : leadsWith p l = true ↔ ∃ t, l = p ++ t := by
  induction p generalizing l with
  | nil =>
    simp [leadsWith]
  | cons b bs ih =>
    cases l with
    | nil =>
      simp [leadsWith]
    | cons c cs =>
      simp only [leadsWith, Bool.and_eq_true, beq_iff_eq, ih, List.cons_append]
      constructor
      · rintro ⟨hbc, t, ht⟩
        exact ⟨t, by rw [hbc, ht]⟩
      · rintro ⟨t, ht⟩
        injection ht with h1 h2
        exact ⟨h1.symm, t, h2⟩

theorem strContains_iff (s sub : String) :
    strContains s sub = true ↔ ∃ pre post : List Char, s.data = pre ++ sub.data ++ post := by
  unfold strContains
  rw [List.any_eq_true]
  constructor
  · rintro ⟨i, _, hp⟩
    obtain ⟨t, ht⟩ := (leadsWith_iff _ _).mp hp
    refine ⟨s.data.take i, t, ?_⟩
    calc s.data = s.data.take i ++ s.data.drop i := (List.take_append_drop i s.data).symm
      _ = s.data.take i ++ (sub.data ++ t) := by rw [ht]
      _ = s.data.take i ++ sub.data ++ t := by rw [List.append_assoc]
  · rintro ⟨pre, post, h⟩
    refine ⟨pre.length, List.mem_range.mpr ?_, ?_⟩
    · have : s.data.length = pre.length + sub.data.length + post.length := by
        rw [h]; simp [List.length_append]; omega
      omega
    · rw [(leadsWith_iff _ _), h, List.append_assoc, List.drop_left]
      exact ⟨post, rfl⟩

theorem is_write_ne_empty {q : String} (h : is_write q = true) : q ≠ "" := by
  intro hq
  subst hq
  exact absurd h (by decide)

/-! ### Claims -/

/-- C1: the classifier marks a query as a write query iff at least one
keyword of the fixed set occurs as a substring anywhere in the uppercased
query text; every other query is classified as read. -/
theorem c1_is_write_iff_keyword_in_upper (q : String) :
    is_write q = true ↔
      ∃ kw, kw ∈ write_keywords ∧
        ∃ pre post : List Char, (pyUpper q).data = pre ++ kw.data ++ post := by
  unfold is_write
  rw [List.any_eq_true]
  constructor
  · rintro ⟨kw, hmem, hc⟩
    exact ⟨kw, hmem, (strContains_iff _ _).mp hc⟩
  · rintro ⟨kw, hmem, hex⟩
    exact ⟨kw, hmem, (strContains_iff _ _).mpr hex⟩

/-- C2: a read-endpoint request whose query argument is a string classified
as write is answered with exactly the failure response
"Only MATCH queries are allowed for read-query", for every driver
behaviour, and the database call is not attempted. -/
theorem c2_read_rejects_write_classified (a : Args) (q : String) (d : DriverOutcome Value)
    (hq : argsGet a "query" = some (.str q)) (hw : is_write q = true) :
    read_neo4j_cypher (some a) d =
      (errResp "Only MATCH queries are allowed for read-query", false) := by
  have hne : q ≠ "" := is_write_ne_empty hw
  simp [read_neo4j_cypher, hq, Value.truthy, hne, hw]

theorem c2_witness :
    read_neo4j_cypher (some [("query", Value.str "CREATE (n)")]) (.ok (.list [])) =
      (errResp "Only MATCH queries are allowed for read-query", false) :=
  c2_read_rejects_write_classified _ "CREATE (n)" _ rfl (by decide)

/-- C3: a write-endpoint request whose query argument is a non-empty string
classified as read (no write keyword) is answered with exactly the failure
response "Only write queries are allowed for write-query", for every driver
behaviour, and the database call is not attempted. -/
theorem c3_write_rejects_read_classified (a : Args) (q : String)
    (d : DriverOutcome (List Value × SummaryCounters))
    (hq : argsGet a "query" = some (.str q)) (hne : q ≠ "") (hw : is_write q = false) :
    write_neo4j_cypher (some a) d =
      (errResp "Only write queries are allowed for write-query", false) := by
  simp [write_neo4j_cypher, hq, Value.truthy, hne, hw]

theorem c3_witness :
    write_neo4j_cypher (some [("query", Value.str "MATCH (n) RETURN n")])
        (.ok ([], ⟨0, 0, 0, 0, 0, 0, 0⟩)) =
      (errResp "Only write queries are allowed for write-query", false) :=
  c3_write_rejects_read_classified _ "MATCH (n) RETURN n" _ rfl (by decide) (by decide)

/-- C6: a request to either query endpoint whose query argument is missing
or the empty string is answered with exactly the failure response
"Query parameter is required", for every driver behaviour, and the database
call is not attempted. -/
theorem c6_missing_or_empty_query (a : Args) (d1 : DriverOutcome Value)
    (d2 : DriverOutcome (List Value × SummaryCounters))
    (h : argsGet a "query" = none ∨ argsGet a "query" = some (.str "")) :
    read_neo4j_cypher (some a) d1 = (errResp "Query parameter is required", false) ∧
    write_neo4j_cypher (some a) d2 = (errResp "Query parameter is required", false) := by
  rcases h with h | h <;>
    exact ⟨by simp [read_neo4j_cypher, h, Value.truthy],
           by simp [write_neo4j_cypher, h, Value.truthy]⟩

theorem c6_witness :
    read_neo4j_cypher (some []) (.ok (.list [])) =
      (errResp "Query parameter is required", false) ∧
    write_neo4j_cypher (some []) (.ok ([], ⟨0, 0, 0, 0, 0, 0, 0⟩)) =
      (errResp "Query parameter is required", false) :=
  c6_missing_or_empty_query [] _ _ (Or.inl rfl)

/-- C7: a write-endpoint request whose driver call succeeds is answered
with success and a mapping with exactly the seven counter keys, each equal
to the corresponding summary counter passed through unchanged; the row data
returned by the driver is discarded. -/
theorem c7_write_success_counters (a : Args) (q : String) (rows : List Value)
    (c : SummaryCounters)
    (hq : argsGet a "query" = some (.str q)) (hw : is_write q = true) :
    write_neo4j_cypher (some a) (.ok (rows, c)) =
      (okResp (.dict
        [("nodesCreated", .int c.nodes_created),
         ("nodesDeleted", .int c.nodes_deleted),
         ("relationshipsCreated", .int c.relationships_created),
         ("relationshipsDeleted", .int c.relationships_deleted),
         ("propertiesSet", .int c.properties_set),
         ("labelsAdded", .int c.labels_added),
         ("labelsRemoved", .int c.labels_removed)]), true) := by
  have hne : q ≠ "" := is_write_ne_empty hw
  simp [write_neo4j_cypher, hq, Value.truthy, hne, hw]

theorem c7_witness :
    write_neo4j_cypher (some [("query", Value.str "CREATE (n:Test) RETURN n")])
        (.ok ([Value.dict []], ⟨1, 0, 0, 0, 0, 1, 0⟩)) =
      (okResp (.dict
        [("nodesCreated", .int 1),
         ("nodesDeleted", .int 0),
         ("relationshipsCreated", .int 0),
         ("relationshipsDeleted", .int 0),
         ("propertiesSet", .int 0),
         ("labelsAdded", .int 1),
         ("labelsRemoved", .int 0)]), true) :=
  c7_write_success_counters _ "CREATE (n:Test) RETURN n" _ _ rfl (by decide)

/-- C8: a schema-introspection request whose driver call succeeds is
answered with success; the data is the first record's value field when the
record sequence is non-empty and the empty structure when the driver
returns no records. -/
theorem c8_schema_success (a : Option Args) (records : List Args) :
    (records = [] → get_neo4j_schema a (.ok records) = (okResp (.dict []), true)) ∧
    (∀ r rest, records = r :: rest →
      get_neo4j_schema a (.ok records) =
        (okResp (recordGetD r "value" (.dict [])), true)) := by
  constructor
  · rintro rfl; rfl
  · rintro r rest rfl; rfl

theorem c8_witness :
    get_neo4j_schema (some []) (.ok []) = (okResp (.dict []), true) ∧
    get_neo4j_schema (some []) (.ok [[("value", Value.dict [("Person", Value.null)])]]) =
      (okResp (Value.dict [("Person", Value.null)]), true) := by
  constructor
  · exact (c8_schema_success (some []) []).1 rfl
  · have h := (c8_schema_success (some [])
      [[("value", Value.dict [("Person", Value.null)])]]).2
      [("value", Value.dict [("Person", Value.null)])] [] rfl
    rw [h]; rfl

/-- C9: the schema endpoint response does not depend on the request
arguments: for any two requests, if the driver behaves identically then the
responses are identical. -/
theorem c9_schema_ignores_request (a1 a2 : Option Args) (d : DriverOutcome (List Args)) :
    get_neo4j_schema a1 d = get_neo4j_schema a2 d := rfl

/-- C10: a query-endpoint request whose query argument is a truthy
non-string value yields, without any database call and without an
exception escaping the handler, a failure response whose error message
begins with "Neo4j Error: " (the caught AttributeError of uppercasing). -/
theorem c10_nonstring_truthy_query (a : Args) (v : Value) (d1 : DriverOutcome Value)
    (d2 : DriverOutcome (List Value × SummaryCounters))
    (hq : argsGet a "query" = some v) (ht : v.truthy = true)
    (hs : ∀ s, v ≠ .str s) :
    read_neo4j_cypher (some a) d1 =
      (errResp ("Neo4j Error: " ++ upperAttrError v), false) ∧
    write_neo4j_cypher (some a) d2 =
      (errResp ("Neo4j Error: " ++ upperAttrError v), false) := by
  refine ⟨?_, ?_⟩ <;> cases v <;> first
    | exact absurd rfl (hs _)
    | simp [read_neo4j_cypher, write_neo4j_cypher, hq, ht]

theorem c10_witness :
    read_neo4j_cypher (some [("query", Value.int 5)]) (.ok (.list [])) =
      (errResp ("Neo4j Error: " ++ upperAttrError (Value.int 5)), false) ∧
    write_neo4j_cypher (some [("query", Value.int 5)]) (.ok ([], ⟨0, 0, 0, 0, 0, 0, 0⟩)) =
      (errResp ("Neo4j Error: " ++ upperAttrError (Value.int 5)), false) :=
  c10_nonstring_truthy_query _ (Value.int 5) _ _ rfl rfl (fun _ h => nomatch h)

/-- C4: a driver exception in any of the three endpoints is caught and
turned into a success=false response whose error field carries the
stringified exception in band; on the schema endpoint an exception whose
text contains the procedure-not-found code is replaced by the prescriptive
APOC message. -/
theorem c4_driver_errors_in_band :
    (∀ (a : Option Args) (m : String),
       get_neo4j_schema a (.raises m) =
         (errResp (if strContains m procNotFoundCode then apocMissingMsg
                   else "Neo4j Error: " ++ m), true)) ∧
    (∀ (a : Option Args) (m : String),
       (read_neo4j_cypher a (.raises m)).2 = true →
         read_neo4j_cypher a (.raises m) =
           (errResp ("Neo4j Error: " ++ m), true)) ∧
    (∀ (a : Option Args) (m : String),
       (write_neo4j_cypher a (.raises m)).2 = true →
         write_neo4j_cypher a (.raises m) =
           (errResp ("Neo4j Error: " ++ m), true)) := by
  refine ⟨?_, ?_, ?_⟩
  · intro a m
    simp only [get_neo4j_schema]
    by_cases h : strContains m procNotFoundCode = true <;> simp [h]
  · intro a m h
    unfold read_neo4j_cypher at h ⊢
    repeat' split
    all_goals simp_all
  · intro a m h
    unfold write_neo4j_cypher at h ⊢
    repeat' split
    all_goals simp_all

theorem c4_witness :
    get_neo4j_schema (some []) (.raises "boom") =
      (errResp ("Neo4j Error: " ++ "boom"), true) ∧
    read_neo4j_cypher (some [("query", Value.str "MATCH (n)")]) (.raises "boom") =
      (errResp ("Neo4j Error: " ++ "boom"), true) ∧
    write_neo4j_cypher (some [("query", Value.str "CREATE (n)")]) (.raises "boom") =
      (errResp ("Neo4j Error: " ++ "boom"), true) := by
  refine ⟨?_, ?_, ?_⟩
  · have h := c4_driver_errors_in_band.1 (some []) "boom"
    rw [h]; rfl
  · exact c4_driver_errors_in_band.2.1 _ "boom" rfl
  · exact c4_driver_errors_in_band.2.2 _ "boom" rfl

/-- C5: every response produced by any of the three endpoints, on every
success and failure path, populates exactly one of the success-data and
failure-error sides: success implies data present and error absent,
failure implies error present and data absent. -/
theorem c5_responses_well_formed :
    (∀ (a : Option Args) (d : DriverOutcome (List Args)),
       wellFormed (get_neo4j_schema a d).1 = true) ∧
    (∀ (a : Option Args) (d : DriverOutcome Value),
       wellFormed (read_neo4j_cypher a d).1 = true) ∧
    (∀ (a : Option Args) (d : DriverOutcome (List Value × SummaryCounters)),
       wellFormed (write_neo4j_cypher a d).1 = true) := by
  refine ⟨?_, ?_, ?_⟩
  · intro a d
    unfold get_neo4j_schema
    repeat' split
    all_goals rfl
  · intro a d
    unfold read_neo4j_cypher
    repeat' split
    all_goals rfl
  · intro a d
    unfold write_neo4j_cypher
    repeat' split
    all_goals rfl

end IKAS
